import Mathlib

/-!
Shallow embedding of `src/server.js` (emailbuilder-backend): an Express
application exposing five CRUD routes over a MongoDB collection of email
templates (via a mongoose model) and one Cloudinary image-upload route.

The HTTP handlers are translated directly from the source.  The external
collaborators (the mongoose driver and the Cloudinary storage engine) are
modelled by explicit state-passing functions that reproduce their documented
behavior as invoked by the source with its configuration:
  * `findById` / `findByIdAndUpdate` / `findByIdAndDelete` first cast the id
    string to an ObjectId and reject a malformed id (CastError), which the
    route handlers surface as a 500;
  * `new EmailTemplate({title, sections}).save()` enforces the schema of
    src/server.js lines 54-62: `title` is a required String (the mongoose
    required check fails on a missing or empty string), `sections` is an
    Array defaulting to `[]`, and `timestamps: true` sets `createdAt` and
    `updatedAt`;
  * `findByIdAndUpdate(id, { title, sections }, { new: true })` drops the
    entries of the update object whose value is `undefined` and returns the
    post-update document;
  * the `CloudinaryStorage` of lines 40-48 stores an incoming file in the
    fixed folder `email-images` and only accepts the formats of its
    `allowed_formats` list.
-/

/-- Free-form JSON value: the contents of a template section (and of any
extra request-body field) are opaque structured data that the server never
inspects. -/
inductive JsonValue where
  | null
  | bool (b : Bool)
  | num (n : Int)
  | str (s : String)
  | arr (elems : List JsonValue)
  | obj (fields : List (String × JsonValue))

/-- A stored email-template document: the two schema paths of
`emailTemplateSchema` (src/server.js lines 54-60) plus the `_id` assigned by
the store and the two timestamps added by `timestamps: true`. -/
structure EmailTemplate where
  id : String
  title : String
  sections : List JsonValue
  createdAt : Nat
  updatedAt : Nat

/-- A parsed JSON request body as the handlers see it: the `title` and
`sections` fields that `const { title, sections } = req.body` destructures
(each possibly absent), plus whatever other fields the client sent. -/
structure RequestBody where
  title : Option String
  sections : Option (List JsonValue)
  rest : List (String × JsonValue)

/-- State of the document store: whether the MongoDB connection is up, the
documents of the `EmailTemplate` collection in insertion order, and the
counter from which the next ObjectId is generated. -/
structure Store where
  connected : Bool
  docs : List EmailTemplate
  nextId : Nat

/-- Failures a store call can reject with: the id string failed to cast to
an ObjectId, schema validation failed on save, or the database is
unreachable. -/
inductive StoreError where
  | castError
  | validationError
  | connectionError

/-- Hex digit character for a value below 16 (lower case, as in the hex
representation of a MongoDB ObjectId). -/
def hexChar (n : Nat) : Char :=
  if n < 10 then Char.ofNat (48 + n) else Char.ofNat (87 + n)

/-- Numeric value of a hex digit character. -/
def hexVal (c : Char) : Nat :=
  if 97 ≤ c.toNat then c.toNat - 87 else c.toNat - 48

/-- The `d` least-significant hex digits of `n`, most significant first. -/
def toHexDigits : Nat → Nat → List Char
  | 0, _ => []
  | d + 1, n => toHexDigits d (n / 16) ++ [hexChar (n % 16)]

/-- Value of a big-endian list of hex digit characters. -/
def fromHexDigits : List Char → Nat
  | [] => 0
  | c :: cs => hexVal c * 16 ^ cs.length + fromHexDigits cs

/-- Number of distinct MongoDB ObjectIds (12 bytes, i.e. 24 hex digits). -/
def objectIdSpace : Nat := 16 ^ 24

/-- The 24-hex-digit ObjectId string generated for the `n`-th created
document. -/
def renderObjectId (n : Nat) : String :=
  String.mk (toHexDigits 24 n)

/-- Whether a character is a hexadecimal digit. -/
def isHexDigitChar (c : Char) : Bool :=
  ('0' ≤ c && c ≤ '9') || ('a' ≤ c && c ≤ 'f') || ('A' ≤ c && c ≤ 'F')

/-- Whether a string casts to a MongoDB ObjectId: a 24-character hex string
(or any 12-character string, read as 12 raw bytes).  A string that fails
this check makes the driver reject the query with a CastError. -/
def isValidObjectId (s : String) : Bool :=
  (s.length == 24 && s.toList.all isHexDigitChar) || s.length == 12

/-- Model of `new EmailTemplate({ title, sections })` followed by
`.save()` (src/server.js lines 71-72): validation fails when the required
String path `title` is absent or empty; an absent `sections` defaults to
`[]`; `timestamps: true` sets both timestamps; the store assigns a fresh
ObjectId and appends the document to the collection.  Fields of the request
body other than `title` and `sections` never reach the schema. -/
def saveTemplate (st : Store) (title : Option String)
    (sections : Option (List JsonValue)) (now : Nat) :
    Except StoreError (EmailTemplate × Store) :=
  match title with
  | none => .error .validationError
  | some t =>
    if t.length == 0 then .error .validationError
    else if !st.connected then .error .connectionError
    else
      let doc : EmailTemplate :=
        { id := renderObjectId st.nextId, title := t,
          sections := sections.getD [], createdAt := now, updatedAt := now }
      .ok (doc, { st with docs := st.docs ++ [doc], nextId := st.nextId + 1 })

/-- Model of `EmailTemplate.find()` (src/server.js line 83): every document
of the collection, in the natural (insertion) order of the store. -/
def findAllTemplates (st : Store) : Except StoreError (List EmailTemplate) :=
  if !st.connected then .error .connectionError
  else .ok st.docs

/-- Model of `EmailTemplate.findById(id)` (src/server.js line 96): a
malformed id rejects with a CastError before the query runs; otherwise the
document with that id, if any. -/
def findById (st : Store) (id : String) :
    Except StoreError (Option EmailTemplate) :=
  if !isValidObjectId id then .error .castError
  else if !st.connected then .error .connectionError
  else .ok (st.docs.find? (fun d => d.id == id))

/-- Model of `EmailTemplate.findByIdAndUpdate(id, { title, sections },
{ new: true })` (src/server.js lines 113-117): after the ObjectId cast,
mongoose drops the `undefined` entries of the update object, applies the
remaining ones to the matched document, bumps `updatedAt` (from
`timestamps: true`), and returns the post-update document (`new: true`);
`none` when no document matches. -/
def findByIdAndUpdate (st : Store) (id : String) (title : Option String)
    (sections : Option (List JsonValue)) (now : Nat) :
    Except StoreError (Option EmailTemplate × Store) :=
  if !isValidObjectId id then .error .castError
  else if !st.connected then .error .connectionError
  else
    match st.docs.find? (fun d => d.id == id) with
    | none => .ok (none, st)
    | some d =>
      let d2 : EmailTemplate :=
        { d with title := title.getD d.title,
                 sections := sections.getD d.sections, updatedAt := now }
      .ok (some d2,
        { st with docs := st.docs.map (fun e => if e.id == id then d2 else e) })

/-- Model of `EmailTemplate.findByIdAndDelete(id)` (src/server.js line
133): after the ObjectId cast, removes the matched document and returns it;
`none` when no document matches. -/
def findByIdAndDelete (st : Store) (id : String) :
    Except StoreError (Option EmailTemplate × Store) :=
  if !isValidObjectId id then .error .castError
  else if !st.connected then .error .connectionError
  else
    match st.docs.find? (fun d => d.id == id) with
    | none => .ok (none, st)
    | some d =>
      .ok (some d, { st with docs := st.docs.filter (fun e => !(e.id == id)) })

/-- The JSON payloads the routes of src/server.js respond with. -/
inductive ResponseBody where
  | template (t : EmailTemplate)
  | templates (ts : List EmailTemplate)
  | errorMsg (msg : String)
  | message (msg : String)
  | imageUrl (url : String)

/-- An HTTP response: status code plus JSON body. -/
structure HttpResponse where
  status : Nat
  body : ResponseBody

/-- The id of the template document in a response body, when the response
carries a single template. -/
def responseId (r : HttpResponse) : Option String :=
  match r.body with
  | .template t => some t.id
  | _ => none

/-- The title of the template document in a response body, when the
response carries a single template. -/
def responseTitle (r : HttpResponse) : Option String :=
  match r.body with
  | .template t => some t.title
  | _ => none

/-- The sections of the template document in a response body, when the
response carries a single template. -/
def responseSections (r : HttpResponse) : Option (List JsonValue) :=
  match r.body with
  | .template t => some t.sections
  | _ => none

/-- Handler of `POST /api/email-templates` (src/server.js lines 67-78):
destructures `title` and `sections` from the body, saves a new document,
and answers 201 with the saved document, or 500 on any save failure. -/
def postEmailTemplates (st : Store) (body : RequestBody) (now : Nat) :
    HttpResponse × Store :=
  match saveTemplate st body.title body.sections now with
  | .ok (doc, st2) => (⟨201, .template doc⟩, st2)
  | .error _ => (⟨500, .errorMsg "Failed to create email template."⟩, st)

/-- Handler of `GET /api/email-templates` (src/server.js lines 81-89):
answers 200 with every stored template, or 500 on a store failure. -/
def getEmailTemplatesList (st : Store) : HttpResponse :=
  match findAllTemplates st with
  | .ok ts => ⟨200, .templates ts⟩
  | .error _ => ⟨500, .errorMsg "Failed to fetch email templates."⟩

/-- Handler of `GET /api/email-templates/:id` (src/server.js lines
92-105): 404 with the static message when no document has the id, 200 with
the document otherwise, 500 when the store call rejects. -/
def getEmailTemplateById (st : Store) (id : String) : HttpResponse :=
  match findById st id with
  | .ok none => ⟨404, .errorMsg "Template not found."⟩
  | .ok (some t) => ⟨200, .template t⟩
  | .error _ => ⟨500, .errorMsg "Failed to fetch the email template."⟩

/-- Handler of `PUT /api/email-templates/:id` (src/server.js lines
108-126): destructures `title` and `sections` from the body, updates the
document, and answers 200 with the post-update document, 404 when no
document has the id, 500 when the store call rejects. -/
def putEmailTemplateById (st : Store) (id : String) (body : RequestBody)
    (now : Nat) : HttpResponse × Store :=
  match findByIdAndUpdate st id body.title body.sections now with
  | .ok (none, st2) => (⟨404, .errorMsg "Template not found."⟩, st2)
  | .ok (some t, st2) => (⟨200, .template t⟩, st2)
  | .error _ => (⟨500, .errorMsg "Failed to update the email template."⟩, st)

/-- Handler of `DELETE /api/email-templates/:id` (src/server.js lines
129-142): answers 200 with the static success message, 404 when no
document has the id, 500 when the store call rejects. -/
def deleteEmailTemplateById (st : Store) (id : String) :
    HttpResponse × Store :=
  match findByIdAndDelete st id with
  | .ok (none, st2) => (⟨404, .errorMsg "Template not found."⟩, st2)
  | .ok (some _, st2) => (⟨200, .message "Template deleted successfully."⟩, st2)
  | .error _ => (⟨500, .errorMsg "Failed to delete the email template."⟩, st)

/-- A file arriving under the multipart field `image`: its client-side name
and its image format (extension). -/
structure UploadedFile where
  originalname : String
  format : String

/-- An image persisted on the remote media host. -/
structure StoredImage where
  folder : String
  publicId : String

/-- Outcome of handing a file to the configured `CloudinaryStorage`. -/
inductive UploadOutcome where
  | stored (img : StoredImage)
  | unsupportedFormat

/-- The fixed destination folder of the `CloudinaryStorage` configuration
(src/server.js line 43). -/
def cloudinaryFolder : String := "email-images"

/-- The `allowed_formats` list of the `CloudinaryStorage` configuration
(src/server.js line 44). -/
def cloudinaryAllowedFormats : List String := ["jpg", "png", "jpeg", "gif"]

/-- Model of the `CloudinaryStorage` engine as configured in src/server.js
lines 40-48: a file whose format is in `allowed_formats` is persisted in
the fixed folder `email-images`; any other format is rejected. -/
def cloudinaryStore (f : UploadedFile) : UploadOutcome :=
  if cloudinaryAllowedFormats.contains f.format then
    .stored { folder := cloudinaryFolder, publicId := f.originalname }
  else .unsupportedFormat

/-- The durable public URL of a stored image (`req.file.path`). -/
def imageUrl (img : StoredImage) : String :=
  img.folder ++ "/" ++ img.publicId

/-- Route `POST /api/upload-image` (src/server.js lines 145-150), with the
`upload.single("image")` middleware inlined: with no file under the field
`image` the handler answers 400 and nothing is uploaded; with a stored file
it answers 200 with the file URL; a file the storage engine rejects never
reaches the handler — multer forwards the error to the framework default
error handler, a 500.  The second component is the upload side effect. -/
def postUploadImage (req : Option UploadedFile) :
    HttpResponse × Option StoredImage :=
  match req with
  | none => (⟨400, .errorMsg "No image uploaded."⟩, none)
  | some f =>
    match cloudinaryStore f with
    | .stored img => (⟨200, .imageUrl (imageUrl img)⟩, some img)
    | .unsupportedFormat => (⟨500, .errorMsg "Unsupported format"⟩, none)

/-- Reachable-state invariant of the store: the id counter has not
exhausted the ObjectId space and every stored document carries an id that
was generated by the counter. -/
def Store.WF (st : Store) : Prop :=
  st.nextId < objectIdSpace ∧
    ∀ d ∈ st.docs, ∃ k, k < st.nextId ∧ d.id = renderObjectId k

/-- Example inputs used by the witnesses below. -/
def exampleSections : List JsonValue :=
  [JsonValue.obj [("type", JsonValue.str "text"), ("value", JsonValue.str "Hi")]]

def emptyStore : Store := Store.mk true [] 0

def exampleBody : RequestBody :=
  RequestBody.mk (some "Welcome") (some exampleSections) []

def exampleDoc : EmailTemplate :=
  EmailTemplate.mk (renderObjectId 0) "Welcome" exampleSections 0 0

def storeWithDoc : Store := Store.mk true [exampleDoc] 1

def exampleNewBody : RequestBody :=
  RequestBody.mk (some "Updated") (some []) []

def emptyUpdateBody : RequestBody := RequestBody.mk none none []

def noTitleBody : RequestBody := RequestBody.mk none (some []) []

def noSectionsBody : RequestBody := RequestBody.mk (some "Welcome") none []

def extraFieldsBody : RequestBody :=
  RequestBody.mk (some "Welcome") (some exampleSections)
    [("id", JsonValue.str "client-chosen"), ("createdAt", JsonValue.num 99)]

theorem hexVal_hexChar : ∀ k < 16, hexVal (hexChar k) = k := by decide

theorem toHexDigits_length : ∀ d n, (toHexDigits d n).length = d := by
  intro d
  induction d with
  | zero => intro n; rfl
  | succ d ih =>
    intro n
    simp [toHexDigits, ih]

theorem fromHexDigits_append_singleton (cs : List Char) (c : Char) :
    fromHexDigits (cs ++ [c]) = 16 * fromHexDigits cs + hexVal c := by
  induction cs with
  | nil => simp [fromHexDigits]
  | cons x cs ih =>
    show hexVal x * 16 ^ (cs ++ [c]).length + fromHexDigits (cs ++ [c]) = _
    rw [ih, List.length_append]
    show hexVal x * 16 ^ (cs.length + 1) + (16 * fromHexDigits cs + hexVal c) =
      16 * (hexVal x * 16 ^ cs.length + fromHexDigits cs) + hexVal c
    ring

theorem fromHexDigits_toHexDigits : ∀ d n, n < 16 ^ d →
    fromHexDigits (toHexDigits d n) = n := by
  intro d
  induction d with
  | zero =>
    intro n hn
    have h0 : n = 0 := by simpa using hn
    subst h0
    rfl
  | succ d ih =>
    intro n hn
    have h16 : n % 16 < 16 := Nat.mod_lt _ (by norm_num)
    have hdiv : n / 16 < 16 ^ d := by
      rw [Nat.div_lt_iff_lt_mul (by norm_num : (0:Nat) < 16)]
      rw [pow_succ] at hn
      exact hn
    show fromHexDigits (toHexDigits d (n / 16) ++ [hexChar (n % 16)]) = n
    rw [fromHexDigits_append_singleton, ih _ hdiv, hexVal_hexChar _ h16]
    omega

theorem renderObjectId_inj {m n : Nat} (hm : m < objectIdSpace)
    (hn : n < objectIdSpace) (h : renderObjectId m = renderObjectId n) :
    m = n := by
  have hlist : toHexDigits 24 m = toHexDigits 24 n := congrArg String.data h
  have h2 := fromHexDigits_toHexDigits 24 m hm
  rw [hlist, fromHexDigits_toHexDigits 24 n hn] at h2
  exact h2.symm

theorem isHexDigitChar_hexChar : ∀ k < 16, isHexDigitChar (hexChar k) = true := by
  decide

theorem toHexDigits_all_hex : ∀ d n c, c ∈ toHexDigits d n →
    isHexDigitChar c = true := by
  intro d
  induction d with
  | zero => intro n c hc; simp [toHexDigits] at hc
  | succ d ih =>
    intro n c hc
    simp only [toHexDigits, List.mem_append, List.mem_singleton] at hc
    rcases hc with hc | hc
    · exact ih _ _ hc
    · subst hc
      exact isHexDigitChar_hexChar _ (Nat.mod_lt _ (by norm_num))

theorem isValidObjectId_renderObjectId (n : Nat) :
    isValidObjectId (renderObjectId n) = true := by
  have hlen : (renderObjectId n).length = 24 := by
    show (toHexDigits 24 n).length = 24
    exact toHexDigits_length 24 n
  have hall : ∀ c ∈ (renderObjectId n).data, isHexDigitChar c = true :=
    fun c hc => toHexDigits_all_hex 24 n c hc
  simp only [isValidObjectId, hlen, Bool.or_eq_true, Bool.and_eq_true]
  left
  constructor
  · simp
  · rw [List.all_eq_true]
    exact hall

theorem find?_map_update (id : String) (d d2 : EmailTemplate)
    (hd2 : (d2.id == id) = true) :
    ∀ l : List EmailTemplate, l.find? (fun e => e.id == id) = some d →
      (l.map fun e => if e.id == id then d2 else e).find?
          (fun e => e.id == id) = some d2 := by
  intro l
  induction l with
  | nil => intro h; simp [List.find?] at h
  | cons x l ih =>
    intro h
    by_cases hx : (x.id == id) = true
    · simp [List.find?, hx, hd2]
    · rw [List.find?_cons_of_neg (p := fun e : EmailTemplate => e.id == id) _ hx] at h
      simp only [List.map_cons, if_neg hx]
      rw [List.find?_cons_of_neg (p := fun e : EmailTemplate => e.id == id) _ hx]
      exact ih h

theorem findById_ok (st : Store) (id : String)
    (hconn : st.connected = true) (hvalid : isValidObjectId id = true) :
    findById st id = .ok (st.docs.find? (fun d => d.id == id)) := by
  simp [findById, hvalid, hconn]

theorem find?_filter_not {α : Type} (p : α → Bool) (l : List α) :
    (l.filter fun e => !(p e)).find? p = none := by
  rw [List.find?_eq_none]
  intro x hx
  rw [List.mem_filter] at hx
  simp only [Bool.not_eq_true'] at hx
  simp [hx.2]

theorem length_beq_zero_eq_false {t : String} (h : t ≠ "") :
    (t.length == 0) = false := by
  cases t with
  | mk data =>
    cases data with
    | nil => exact absurd rfl h
    | cons c cs => simp [String.length]

theorem store_find?_fresh (st : Store) (hwf : st.WF) :
    st.docs.find? (fun d => d.id == renderObjectId st.nextId) = none := by
  rw [List.find?_eq_none]
  intro d hd
  obtain ⟨k, hk, hid⟩ := hwf.2 d hd
  simp only [beq_iff_eq, hid]
  intro heq
  have : k = st.nextId :=
    renderObjectId_inj (lt_trans hk hwf.1) hwf.1 heq
  omega

/-- C1: for every valid request body with a non-empty title and submitted
sections, `POST /api/email-templates` answers 201 with the submitted title
and sections, and `GET /api/email-templates/:id` at the returned id answers
200 with the very same document. -/
theorem create_then_getById_roundtrip (st : Store) (b : RequestBody)
    (now : Nat) (t : String) (secs : List JsonValue)
    (hwf : st.WF) (hconn : st.connected = true)
    (ht : b.title = some t) (hne : t ≠ "") (hs : b.sections = some secs) :
    (postEmailTemplates st b now).1.status = 201 ∧
    responseTitle (postEmailTemplates st b now).1 = some t ∧
    responseSections (postEmailTemplates st b now).1 = some secs ∧
    getEmailTemplateById (postEmailTemplates st b now).2
        ((responseId (postEmailTemplates st b now).1).getD "") =
      ⟨200, (postEmailTemplates st b now).1.body⟩ := by
  have hlen := length_beq_zero_eq_false hne
  have hpost : postEmailTemplates st b now =
      (HttpResponse.mk 201 (ResponseBody.template
          (EmailTemplate.mk (renderObjectId st.nextId) t secs now now)),
       Store.mk st.connected
         (st.docs ++ [EmailTemplate.mk (renderObjectId st.nextId) t secs now now])
         (st.nextId + 1)) := by
    simp [postEmailTemplates, saveTemplate, ht, hs, hlen, hconn]
  rw [hpost]
  refine ⟨rfl, rfl, rfl, ?_⟩
  simp only [responseId, Option.getD]
  simp only [getEmailTemplateById, findById, isValidObjectId_renderObjectId,
    Bool.not_true, hconn]
  rw [List.find?_append, store_find?_fresh st hwf]
  simp [List.find?]

/-- C1 witness at a concrete store and body. -/
theorem create_then_getById_roundtrip_witness :
    (postEmailTemplates emptyStore exampleBody 0).1.status = 201 ∧
    responseTitle (postEmailTemplates emptyStore exampleBody 0).1 = some "Welcome" ∧
    responseSections (postEmailTemplates emptyStore exampleBody 0).1 =
      some exampleSections ∧
    getEmailTemplateById (postEmailTemplates emptyStore exampleBody 0).2
        ((responseId (postEmailTemplates emptyStore exampleBody 0).1).getD "") =
      ⟨200, (postEmailTemplates emptyStore exampleBody 0).1.body⟩ :=
  create_then_getById_roundtrip emptyStore exampleBody 0 "Welcome" exampleSections
    ⟨by norm_num [objectIdSpace, emptyStore], by simp [emptyStore]⟩
    rfl rfl (by decide) rfl

/-- C2 (amended): while the store connection is up, for every id in valid
ObjectId form for which no stored template exists, the getById, update and
delete routes each answer 404 with the static message and leave the store
unchanged. -/
theorem absent_valid_id_yields_404 (st : Store) (id : String)
    (b : RequestBody) (now : Nat)
    (hconn : st.connected = true) (hvalid : isValidObjectId id = true)
    (habsent : st.docs.find? (fun d => d.id == id) = none) :
    getEmailTemplateById st id = ⟨404, .errorMsg "Template not found."⟩ ∧
    putEmailTemplateById st id b now =
      (⟨404, .errorMsg "Template not found."⟩, st) ∧
    deleteEmailTemplateById st id =
      (⟨404, .errorMsg "Template not found."⟩, st) := by
  refine ⟨?_, ?_, ?_⟩ <;>
    simp [getEmailTemplateById, putEmailTemplateById, deleteEmailTemplateById,
      findById, findByIdAndUpdate, findByIdAndDelete, hvalid, hconn, habsent]

/-- C2 witness: the concrete valid ObjectId string of 24 zeros is absent
from the empty store and all three routes answer 404 on it. -/
theorem absent_valid_id_yields_404_witness :
    getEmailTemplateById emptyStore "000000000000000000000000" =
      ⟨404, .errorMsg "Template not found."⟩ ∧
    putEmailTemplateById emptyStore "000000000000000000000000" exampleBody 0 =
      (⟨404, .errorMsg "Template not found."⟩, emptyStore) ∧
    deleteEmailTemplateById emptyStore "000000000000000000000000" =
      (⟨404, .errorMsg "Template not found."⟩, emptyStore) :=
  absent_valid_id_yields_404 emptyStore "000000000000000000000000" exampleBody 0
    rfl (by decide) rfl

/-- C2 counterexample: the malformed id string "abc" matches no stored
template (the collection is empty), yet all three routes answer 500 — the
ObjectId cast rejects before the lookup — and not 404. -/
theorem malformed_id_answers_500_not_404 :
    getEmailTemplateById emptyStore "abc" =
      ⟨500, .errorMsg "Failed to fetch the email template."⟩ ∧
    (putEmailTemplateById emptyStore "abc" exampleBody 0).1 =
      ⟨500, .errorMsg "Failed to update the email template."⟩ ∧
    (deleteEmailTemplateById emptyStore "abc").1 =
      ⟨500, .errorMsg "Failed to delete the email template."⟩ ∧
    getEmailTemplateById emptyStore "abc" ≠
      ⟨404, .errorMsg "Template not found."⟩ := by
  refine ⟨rfl, rfl, rfl, ?_⟩
  intro h
  exact absurd (congrArg HttpResponse.status h) (by decide)

theorem putEmailTemplateById_found (st : Store) (id : String)
    (b : RequestBody) (now : Nat) (d : EmailTemplate)
    (hconn : st.connected = true) (hvalid : isValidObjectId id = true)
    (hfind : st.docs.find? (fun e => e.id == id) = some d) :
    putEmailTemplateById st id b now =
      (HttpResponse.mk 200 (ResponseBody.template
        (EmailTemplate.mk d.id (b.title.getD d.title)
          (b.sections.getD d.sections) d.createdAt now)),
       Store.mk st.connected
         (st.docs.map fun e =>
           if e.id == id then
             EmailTemplate.mk d.id (b.title.getD d.title)
               (b.sections.getD d.sections) d.createdAt now
           else e)
         st.nextId) := by
  simp [putEmailTemplateById, findByIdAndUpdate, hvalid, hconn, hfind]

theorem getById_after_put (st : Store) (id : String)
    (b : RequestBody) (now : Nat) (d : EmailTemplate)
    (hconn : st.connected = true) (hvalid : isValidObjectId id = true)
    (hfind : st.docs.find? (fun e => e.id == id) = some d) :
    getEmailTemplateById (putEmailTemplateById st id b now).2 id =
      ⟨200, ResponseBody.template
        (EmailTemplate.mk d.id (b.title.getD d.title)
          (b.sections.getD d.sections) d.createdAt now)⟩ := by
  rw [putEmailTemplateById_found st id b now d hconn hvalid hfind]
  have hpd := List.find?_some hfind
  unfold getEmailTemplateById
  dsimp only
  rw [findById_ok (Store.mk st.connected
      (st.docs.map fun e =>
        if e.id == id then
          EmailTemplate.mk d.id (b.title.getD d.title)
            (b.sections.getD d.sections) d.createdAt now
        else e)
      st.nextId) id hconn hvalid]
  rw [find?_map_update id d
    (EmailTemplate.mk d.id (b.title.getD d.title)
      (b.sections.getD d.sections) d.createdAt now) hpd st.docs hfind]

/-- C3: updating an existing id with a submitted title and sections
answers 200 with the post-update document carrying exactly the new title
and sections, and a subsequent getById answers 200 with that same
document. -/
theorem update_replaces_and_getById_reflects (st : Store) (id : String)
    (b : RequestBody) (now : Nat) (d : EmailTemplate)
    (nt : String) (ns : List JsonValue)
    (hconn : st.connected = true) (hvalid : isValidObjectId id = true)
    (hfind : st.docs.find? (fun e => e.id == id) = some d)
    (ht : b.title = some nt) (hs : b.sections = some ns) :
    (putEmailTemplateById st id b now).1.status = 200 ∧
    responseTitle (putEmailTemplateById st id b now).1 = some nt ∧
    responseSections (putEmailTemplateById st id b now).1 = some ns ∧
    getEmailTemplateById (putEmailTemplateById st id b now).2 id =
      ⟨200, (putEmailTemplateById st id b now).1.body⟩ := by
  have hput := putEmailTemplateById_found st id b now d hconn hvalid hfind
  have hget := getById_after_put st id b now d hconn hvalid hfind
  rw [hput] at hget
  rw [hput]
  refine ⟨rfl, ?_, ?_, hget⟩
  · simp [responseTitle, ht]
  · simp [responseSections, hs]

/-- C3 witness at a concrete one-document store. -/
theorem update_replaces_and_getById_reflects_witness :
    (putEmailTemplateById storeWithDoc (renderObjectId 0) exampleNewBody 5).1.status
      = 200 ∧
    responseTitle
        (putEmailTemplateById storeWithDoc (renderObjectId 0) exampleNewBody 5).1
      = some "Updated" ∧
    responseSections
        (putEmailTemplateById storeWithDoc (renderObjectId 0) exampleNewBody 5).1
      = some [] ∧
    getEmailTemplateById
        (putEmailTemplateById storeWithDoc (renderObjectId 0) exampleNewBody 5).2
        (renderObjectId 0) =
      ⟨200,
        (putEmailTemplateById storeWithDoc (renderObjectId 0) exampleNewBody 5).1.body⟩ :=
  update_replaces_and_getById_reflects storeWithDoc (renderObjectId 0)
    exampleNewBody 5 exampleDoc "Updated" []
    rfl (isValidObjectId_renderObjectId 0) rfl rfl rfl

theorem find?_filter_delete (id : String) (l : List EmailTemplate) :
    (l.filter fun e => !(e.id == id)).find? (fun e => e.id == id) = none := by
  rw [List.find?_eq_none]
  intro x hx
  rw [List.mem_filter] at hx
  simp only [Bool.not_eq_true'] at hx
  simp [hx.2]

/-- C4: deleting an existing id answers 200 with the static success
message, and a subsequent getById on that id answers 404. -/
theorem delete_then_getById_notFound (st : Store) (id : String)
    (d : EmailTemplate)
    (hconn : st.connected = true) (hvalid : isValidObjectId id = true)
    (hfind : st.docs.find? (fun e => e.id == id) = some d) :
    (deleteEmailTemplateById st id).1 =
      ⟨200, .message "Template deleted successfully."⟩ ∧
    getEmailTemplateById (deleteEmailTemplateById st id).2 id =
      ⟨404, .errorMsg "Template not found."⟩ := by
  have hdel : deleteEmailTemplateById st id =
      (HttpResponse.mk 200 (ResponseBody.message "Template deleted successfully."),
       Store.mk st.connected (st.docs.filter fun e => !(e.id == id)) st.nextId) := by
    simp [deleteEmailTemplateById, findByIdAndDelete, hvalid, hconn, hfind]
  rw [hdel]
  refine ⟨rfl, ?_⟩
  unfold getEmailTemplateById
  dsimp only
  rw [findById_ok (Store.mk st.connected
      (st.docs.filter fun e => !(e.id == id)) st.nextId) id hconn hvalid]
  rw [find?_filter_delete]

/-- C4 witness at a concrete one-document store. -/
theorem delete_then_getById_notFound_witness :
    (deleteEmailTemplateById storeWithDoc (renderObjectId 0)).1 =
      ⟨200, .message "Template deleted successfully."⟩ ∧
    getEmailTemplateById (deleteEmailTemplateById storeWithDoc (renderObjectId 0)).2
        (renderObjectId 0) =
      ⟨404, .errorMsg "Template not found."⟩ :=
  delete_then_getById_notFound storeWithDoc (renderObjectId 0) exampleDoc
    rfl (isValidObjectId_renderObjectId 0) rfl

/-- C9: a PUT on an existing id whose body omits `title` (or omits
`sections`) answers with, and persists, the previously stored value of the
omitted field: the `undefined` entries of the update object are dropped,
not written. -/
theorem update_preserves_omitted_fields (st : Store) (id : String)
    (b : RequestBody) (now : Nat) (d : EmailTemplate)
    (hconn : st.connected = true) (hvalid : isValidObjectId id = true)
    (hfind : st.docs.find? (fun e => e.id == id) = some d) :
    (b.title = none →
      responseTitle (putEmailTemplateById st id b now).1 = some d.title ∧
      responseTitle
          (getEmailTemplateById (putEmailTemplateById st id b now).2 id) =
        some d.title) ∧
    (b.sections = none →
      responseSections (putEmailTemplateById st id b now).1 = some d.sections ∧
      responseSections
          (getEmailTemplateById (putEmailTemplateById st id b now).2 id) =
        some d.sections) := by
  have hput := putEmailTemplateById_found st id b now d hconn hvalid hfind
  have hget := getById_after_put st id b now d hconn hvalid hfind
  constructor
  · intro ht
    rw [hget, hput]
    constructor <;> simp [responseTitle, ht]
  · intro hs
    rw [hget, hput]
    constructor <;> simp [responseSections, hs]

/-- C9 witness: an update body omitting both fields leaves both stored
values unchanged. -/
theorem update_preserves_omitted_fields_witness :
    responseTitle
        (putEmailTemplateById storeWithDoc (renderObjectId 0) emptyUpdateBody 7).1
      = some "Welcome" ∧
    responseTitle
        (getEmailTemplateById
          (putEmailTemplateById storeWithDoc (renderObjectId 0) emptyUpdateBody 7).2
          (renderObjectId 0))
      = some "Welcome" ∧
    responseSections
        (putEmailTemplateById storeWithDoc (renderObjectId 0) emptyUpdateBody 7).1
      = some exampleSections ∧
    responseSections
        (getEmailTemplateById
          (putEmailTemplateById storeWithDoc (renderObjectId 0) emptyUpdateBody 7).2
          (renderObjectId 0))
      = some exampleSections := by
  obtain ⟨h1, h2⟩ := update_preserves_omitted_fields storeWithDoc
    (renderObjectId 0) emptyUpdateBody 7 exampleDoc
    rfl (isValidObjectId_renderObjectId 0) rfl
  exact ⟨(h1 rfl).1, (h1 rfl).2, (h2 rfl).1, (h2 rfl).2⟩

theorem saveTemplate_ok_appends (st : Store) (title : Option String)
    (sections : Option (List JsonValue)) (now : Nat) (doc : EmailTemplate)
    (st2 : Store) (h : saveTemplate st title sections now = .ok (doc, st2)) :
    st2.docs = st.docs ++ [doc] := by
  cases title with
  | none => simp [saveTemplate] at h
  | some t =>
    by_cases hlen : (t.length == 0) = true
    · simp [saveTemplate, hlen] at h
    · cases hc : st.connected with
      | false => simp [saveTemplate, hlen, hc] at h
      | true =>
        have hlen2 : (t.length == 0) = false := by
          simpa using hlen
        simp only [saveTemplate, hlen2, hc, Bool.not_true, Bool.false_eq_true,
          if_false, Except.ok.injEq, Prod.mk.injEq] at h
        obtain ⟨hdoc, hst⟩ := h
        rw [← hst, ← hdoc]

/-- C5: the create route answers 201 with the saved document (appended to
the collection) exactly when the store write succeeds, and answers 500
with the generic message whenever the write fails, which in particular
happens when `title` is missing from the request body. -/
theorem create_response_mirrors_save (st : Store) (b : RequestBody)
    (now : Nat) :
    (∀ doc st2, saveTemplate st b.title b.sections now = .ok (doc, st2) →
      postEmailTemplates st b now = (⟨201, .template doc⟩, st2) ∧
        st2.docs = st.docs ++ [doc]) ∧
    (∀ e, saveTemplate st b.title b.sections now = .error e →
      postEmailTemplates st b now =
        (⟨500, .errorMsg "Failed to create email template."⟩, st)) ∧
    (b.title = none →
      saveTemplate st b.title b.sections now = .error .validationError) := by
  refine ⟨?_, ?_, ?_⟩
  · intro doc st2 h
    exact ⟨by simp [postEmailTemplates, h],
      saveTemplate_ok_appends st b.title b.sections now doc st2 h⟩
  · intro e h
    simp [postEmailTemplates, h]
  · intro h
    rw [h]
    rfl

/-- C5 witness: a concrete successful write answers 201 with the stored
document, and a concrete body lacking `title` makes the write fail and the
route answer 500. -/
theorem create_response_mirrors_save_witness :
    postEmailTemplates emptyStore exampleBody 0 =
      (⟨201, .template (EmailTemplate.mk (renderObjectId 0) "Welcome"
          exampleSections 0 0)⟩,
       Store.mk true
         [EmailTemplate.mk (renderObjectId 0) "Welcome" exampleSections 0 0] 1) ∧
    postEmailTemplates emptyStore noTitleBody 0 =
      (⟨500, .errorMsg "Failed to create email template."⟩, emptyStore) := by
  constructor
  · exact ((create_response_mirrors_save emptyStore exampleBody 0).1
      (EmailTemplate.mk (renderObjectId 0) "Welcome" exampleSections 0 0)
      (Store.mk true
        [EmailTemplate.mk (renderObjectId 0) "Welcome" exampleSections 0 0] 1)
      rfl).1
  · exact (create_response_mirrors_save emptyStore noTitleBody 0).2.1
      .validationError
      ((create_response_mirrors_save emptyStore noTitleBody 0).2.2 rfl)

/-- C8: a create request whose body omits `sections` stores and returns a
document whose sections are the empty sequence. -/
theorem create_omitted_sections_default_empty (st : Store) (b : RequestBody)
    (now : Nat) (t : String)
    (hconn : st.connected = true) (ht : b.title = some t) (hne : t ≠ "")
    (hs : b.sections = none) :
    (postEmailTemplates st b now).1.status = 201 ∧
    responseSections (postEmailTemplates st b now).1 = some [] ∧
    ((postEmailTemplates st b now).2.docs.getLast?).map EmailTemplate.sections =
      some [] := by
  have hlen := length_beq_zero_eq_false hne
  have hpost : postEmailTemplates st b now =
      (HttpResponse.mk 201 (ResponseBody.template
          (EmailTemplate.mk (renderObjectId st.nextId) t [] now now)),
       Store.mk st.connected
         (st.docs ++ [EmailTemplate.mk (renderObjectId st.nextId) t [] now now])
         (st.nextId + 1)) := by
    simp [postEmailTemplates, saveTemplate, ht, hs, hlen, hconn]
  rw [hpost]
  refine ⟨rfl, rfl, ?_⟩
  simp

/-- C8 witness at a concrete body omitting `sections`. -/
theorem create_omitted_sections_default_empty_witness :
    (postEmailTemplates emptyStore noSectionsBody 0).1.status = 201 ∧
    responseSections (postEmailTemplates emptyStore noSectionsBody 0).1 =
      some [] ∧
    ((postEmailTemplates emptyStore noSectionsBody 0).2.docs.getLast?).map
        EmailTemplate.sections = some [] :=
  create_omitted_sections_default_empty emptyStore noSectionsBody 0 "Welcome"
    rfl rfl (by decide) rfl

/-- C10: the create route reads nothing of the request body but `title`
and `sections`: two bodies agreeing on those two fields produce, from the
same store state, literally identical responses and post-states — extra
fields such as a client-supplied id or timestamps are never stored. -/
theorem create_reads_only_title_and_sections (st : Store)
    (b1 b2 : RequestBody) (now : Nat)
    (ht : b1.title = b2.title) (hs : b1.sections = b2.sections) :
    postEmailTemplates st b1 now = postEmailTemplates st b2 now := by
  simp only [postEmailTemplates, ht, hs]

/-- C10 witness: a body with extra fields creates the same document as one
without them. -/
theorem create_reads_only_title_and_sections_witness :
    postEmailTemplates emptyStore extraFieldsBody 0 =
      postEmailTemplates emptyStore exampleBody 0 :=
  create_reads_only_title_and_sections emptyStore extraFieldsBody exampleBody 0
    rfl rfl

/-- C6: the upload route answers 400 with the static message and performs
no upload when no file arrives under the `image` field, and answers 200
with the image URL when the storage engine stores the file. -/
theorem upload_image_route (f : UploadedFile) (img : StoredImage)
    (hstored : cloudinaryStore f = .stored img) :
    postUploadImage none = (⟨400, .errorMsg "No image uploaded."⟩, none) ∧
    postUploadImage (some f) = (⟨200, .imageUrl (imageUrl img)⟩, some img) :=
  ⟨rfl, by simp [postUploadImage, hstored]⟩

/-- C6 witness at a concrete png upload. -/
theorem upload_image_route_witness :
    postUploadImage none = (⟨400, .errorMsg "No image uploaded."⟩, none) ∧
    postUploadImage (some (UploadedFile.mk "picture" "png")) =
      (⟨200, .imageUrl (imageUrl (StoredImage.mk "email-images" "picture"))⟩,
       some (StoredImage.mk "email-images" "picture")) :=
  upload_image_route (UploadedFile.mk "picture" "png")
    (StoredImage.mk "email-images" "picture") rfl

/-- C7: the storage engine accepts exactly the formats jpg, png, jpeg,
gif; an accepted file lands in the fixed folder `email-images`; any other
format is rejected as unsupported. -/
theorem upload_format_allow_list (f : UploadedFile) :
    (f.format ∈ cloudinaryAllowedFormats →
      cloudinaryStore f =
        .stored (StoredImage.mk cloudinaryFolder f.originalname)) ∧
    (f.format ∉ cloudinaryAllowedFormats →
      cloudinaryStore f = .unsupportedFormat) ∧
    (∀ img, cloudinaryStore f = .stored img → img.folder = "email-images") := by
  refine ⟨?_, ?_, ?_⟩
  · intro h
    simp [cloudinaryStore, h]
  · intro h
    simp [cloudinaryStore, h]
  · intro img h
    by_cases hmem : f.format ∈ cloudinaryAllowedFormats
    · simp [cloudinaryStore, hmem] at h
      rw [← h]
      rfl
    · simp [cloudinaryStore, hmem] at h

/-- C7 witness: png is accepted into the fixed folder, pdf is rejected. -/
theorem upload_format_allow_list_witness :
    cloudinaryStore (UploadedFile.mk "picture" "png") =
      .stored (StoredImage.mk cloudinaryFolder "picture") ∧
    cloudinaryStore (UploadedFile.mk "report" "pdf") = .unsupportedFormat :=
  ⟨(upload_format_allow_list (UploadedFile.mk "picture" "png")).1 (by decide),
   (upload_format_allow_list (UploadedFile.mk "report" "pdf")).2.1 (by decide)⟩
